import Mathlib

/-!
Shallow embedding of `frontend/app/src/util/AppNavigation.ts`: the
navigation version-reconciliation state machine of the Streamlit
front-end.  The dispatcher `AppNavigation` routes four inbound event
kinds to one of two strategy objects, the legacy flat-list protocol
(`AppNavigationV1`) and the sectioned protocol (`AppNavigationV2`).

Modelling conventions:
* TypeScript optional / nullable fields (`string | null | undefined`)
  become `Option`; the protobuf-style message records keep the source's
  field names.
* Each handler is a pure function.  Mutation of a strategy's fields is
  explicit state passing: a V1 handler takes the current
  `AppNavigationV1` record and returns the updated one.
* A handler's observable behaviour is a `HandlerOutput`: the immediate
  side effects (callbacks, `document.title`, metrics) in program order,
  and the `MaybeStateUpdate` — `none` for `undefined`, or a partial
  state patch paired with the list of host messages the deferred
  side-effect procedure would send.
* An unchecked dereference of `undefined` (the `as IAppPage` casts on a
  failed list lookup) throws a `TypeError` in JS; such a handler returns
  `none` at the outer `Option` layer, after any field assignments that
  precede the throwing expression have taken effect.
-/

/-- Page record (`IAppPage` of the protobuf layer): every field is
optional in the generated TypeScript interface. -/
structure IAppPage where
  pageScriptHash : Option String := none
  pageName : Option String := none
  isDefault : Option Bool := none
deriving DecidableEq

/-- The slice of the `NewSession` config that the navigation code reads:
`newSession.config?.hideSidebarNav`. -/
structure SessionConfig where
  hideSidebarNav : Option Bool := none
deriving DecidableEq

/-- Inbound `NewSession` message (fields the navigation code reads). -/
structure NewSession where
  appPages : List IAppPage
  pageScriptHash : String
  config : Option SessionConfig := none
deriving DecidableEq

/-- Inbound `PagesChanged` message. -/
structure PagesChanged where
  appPages : List IAppPage
deriving DecidableEq

/-- One section of a `Navigation` message; `header` and `appPages` are
nullable in the generated interface. -/
structure NavSection where
  header : Option String := none
  appPages : Option (List IAppPage) := none
deriving DecidableEq

/-- Inbound `Navigation` message. -/
structure Navigation where
  sections : List NavSection
  pageScriptHash : String
  position : String
deriving DecidableEq

/-- Inbound `PageNotFound` message. -/
structure PageNotFound where
  pageName : String
deriving DecidableEq

/-- Outbound messages to the host frame, as sent through
`hostCommunicationMgr.sendMessageToHost`. -/
inductive HostMessage where
  | setAppPages (appPages : List IAppPage)
  | setCurrentPageName (currentPageName : String) (currentPageScriptHash : String)
deriving DecidableEq

/-- Immediate side effects a handler performs, in program order. -/
inductive Effect where
  | updatePageUrl (mainPageName : String) (newPageName : String) (isViewingMainPage : Bool)
  | pageNotFound (pageName : String)
  | setDocumentTitle (title : String)
  | metricsEnqueue (numPages : Nat) (isMainPage : Option Bool)
deriving DecidableEq

/-- Partial update to `AppNavigationState` (the `AtLeastOne` type of the
source): `some` marks a field present in the patch.  `navPageSections`
models the JS `Map` as an insertion-ordered association list; a value is
the raw `section.appPages` reference that was stored, hence `Option`. -/
structure StatePatch where
  hideSidebarNav : Option Bool := none
  appPages : Option (List IAppPage) := none
  currentPageScriptHash : Option String := none
  navPageSections : Option (List (String × Option (List IAppPage))) := none
deriving DecidableEq

/-- What a single handler call does: its immediate effects, and the
`MaybeStateUpdate` it returns (`none` = `undefined`; otherwise the state
patch and the host messages the deferred procedure sends). -/
structure HandlerOutput where
  effects : List Effect := []
  update : Option (StatePatch × List HostMessage) := none
deriving DecidableEq

/-- JS string `x || d`: `null`, `undefined` and `""` are falsy. -/
def jsStrOr (x : Option String) (d : String) : String :=
  match x with
  | none => d
  | some s => if s = "" then d else s

/-- JS truthiness of a nullable boolean (`null`/`undefined`/`false` are
falsy). -/
def jsTruthy (b : Option Bool) : Bool :=
  b.getD false

/-- The TS `as string` non-null cast on a nullable string, applied only
where the source guarantees presence; `undefined` collapses to `""`. -/
def asString (x : Option String) : String :=
  x.getD ""

/-- `Map.set` of a JS `Map`: an existing key keeps its position and gets
the new value, a new key is appended. -/
def jsMapSet (m : List (String × α)) (k : String) (v : α) :
    List (String × α) :=
  if m.any (fun p => decide (p.1 = k)) then
    m.map (fun p => if p.1 = k then (k, v) else p)
  else
    m ++ [(k, v)]

/-- Internal state of the legacy strategy; the constructor's initial
values are the field defaults. -/
structure AppNavigationV1 where
  appPages : List IAppPage := []
  currentPageScriptHash : Option String := none
  hideSidebarNav : Option Bool := none
deriving DecidableEq

/-- Legacy `handleNewSession`: assigns all three fields from the
incoming session, then dereferences `this.appPages[0]` (throws on an
empty list — modelled by `none` after the assignments). -/
def AppNavigationV1.handleNewSession (v1 : AppNavigationV1)
    (ns : NewSession) : AppNavigationV1 × Option HandlerOutput :=
  let v1' : AppNavigationV1 :=
    { appPages := ns.appPages
      currentPageScriptHash := some ns.pageScriptHash
      hideSidebarNav := some (((ns.config).bind SessionConfig.hideSidebarNav).getD false) }
  match v1'.appPages with
  | [] => (v1', none)
  | mainPage :: _ =>
    let mainPageName := (mainPage.pageName).getD ""
    let newPageName :=
      ((v1'.appPages.find? fun page =>
          decide (page.pageScriptHash = v1'.currentPageScriptHash)).bind
        IAppPage.pageName).getD ""
    let isViewingMainPage :=
      decide (mainPage.pageScriptHash = v1'.currentPageScriptHash)
    (v1',
      some
        { effects :=
            [Effect.updatePageUrl mainPageName newPageName isViewingMainPage,
             Effect.setDocumentTitle (newPageName ++ " · Streamlit"),
             Effect.metricsEnqueue v1'.appPages.length (some isViewingMainPage)]
          update :=
            some
              ({ hideSidebarNav := v1'.hideSidebarNav
                 appPages := some v1'.appPages
                 currentPageScriptHash := v1'.currentPageScriptHash },
               [HostMessage.setAppPages v1'.appPages,
                HostMessage.setCurrentPageName
                  (if isViewingMainPage then "" else newPageName)
                  (asString v1'.currentPageScriptHash)]) })

/-- Legacy `handlePagesChanged`: no field assignment; returns the patch
`{appPages}` and a procedure sending only `SET_APP_PAGES`. -/
def AppNavigationV1.handlePagesChanged (v1 : AppNavigationV1)
    (msg : PagesChanged) : AppNavigationV1 × HandlerOutput :=
  (v1,
    { effects := []
      update :=
        some ({ appPages := some msg.appPages },
          [HostMessage.setAppPages msg.appPages]) })

/-- Legacy `handlePageNotFound`: calls `onPageNotFound` immediately,
computes the fallback hash `this.appPages[0]?.pageScriptHash ?? ""`,
assigns no field. -/
def AppNavigationV1.handlePageNotFound (v1 : AppNavigationV1)
    (msg : PageNotFound) : AppNavigationV1 × HandlerOutput :=
  let currentPageScriptHash :=
    ((v1.appPages.head?).bind IAppPage.pageScriptHash).getD ""
  (v1,
    { effects := [Effect.pageNotFound msg.pageName]
      update :=
        some ({ currentPageScriptHash := some currentPageScriptHash },
          [HostMessage.setCurrentPageName "" currentPageScriptHash]) })

/-- Sectioned `handleNewSession`: sets the document title to
`" · Streamlit"` and returns `undefined`. -/
def AppNavigationV2.handleNewSession (_ns : NewSession) : HandlerOutput :=
  { effects := [Effect.setDocumentTitle " · Streamlit"], update := none }

/-- The `navPageSections` map built by `handleNavigation`: iterate the
sections in order, `set(section.header || "", section.appPages)`. -/
def buildNavPageSections (sections : List NavSection) :
    List (String × Option (List IAppPage)) :=
  sections.foldl (fun m s => jsMapSet m (jsStrOr s.header "") s.appPages) []

/-- `sections.flatMap(section => section.appPages || [])` (an empty JS
array is truthy, so `|| []` only replaces `null`/`undefined`). -/
def flattenSections (sections : List NavSection) : List IAppPage :=
  sections.foldr (fun s acc => (s.appPages).getD [] ++ acc) []

/-- Sectioned `handleNavigation`.  The `currentPage` lookup is followed
by an unchecked dereference (`as IAppPage`); a failed lookup is the
thrown `TypeError`, modelled by `none`. -/
def AppNavigationV2.handleNavigation (msg : Navigation) :
    Option HandlerOutput :=
  let navPageSections := buildNavPageSections msg.sections
  let appPages := flattenSections msg.sections
  let hideSidebarNav := decide (msg.position = "hidden")
  match appPages.find? (fun p =>
      decide (p.pageScriptHash = some msg.pageScriptHash)) with
  | none => none
  | some currentPage =>
    let currentPageScriptHash := asString currentPage.pageScriptHash
    let currentPageName :=
      if jsTruthy currentPage.isDefault then ""
      else asString currentPage.pageName
    some
      { effects :=
          [Effect.metricsEnqueue appPages.length currentPage.isDefault,
           Effect.updatePageUrl "" currentPageName
             ((currentPage.isDefault).getD false)]
        update :=
          some
            ({ appPages := some []
               navPageSections := some navPageSections
               hideSidebarNav := some hideSidebarNav
               currentPageScriptHash := some currentPageScriptHash },
             [HostMessage.setAppPages appPages,
              HostMessage.setCurrentPageName currentPageName
                currentPageScriptHash]) }

/-- Sectioned `handlePagesChanged`: no-op, returns `undefined`. -/
def AppNavigationV2.handlePagesChanged (_msg : PagesChanged) : HandlerOutput :=
  { effects := [], update := none }

/-- Sectioned `handlePageNotFound`: no-op, returns `undefined`. -/
def AppNavigationV2.handlePageNotFound (_msg : PageNotFound) : HandlerOutput :=
  { effects := [], update := none }

/-- The dispatcher's nullable `versionManager` field: `null`, a V1
instance with its state, or the stateless V2 instance. -/
inductive VersionManager where
  | vnull
  | v1 (s : AppNavigationV1)
  | v2
deriving DecidableEq

/-- Protocol rank of the active strategy: none < legacy < sectioned. -/
def strategyVersion : VersionManager → Nat
  | .vnull => 0
  | .v1 _ => 1
  | .v2 => 2

/-- Forwarding step of the dispatcher's `handleNewSession`:
`this.versionManager?.handleNewSession(newSession)` (a `null` manager
yields `undefined` with no effects). -/
def AppNavigation.forwardNewSession (vm : VersionManager)
    (ns : NewSession) : VersionManager × Option HandlerOutput :=
  match vm with
  | .vnull => (.vnull, some { effects := [], update := none })
  | .v1 s =>
    (.v1 (AppNavigationV1.handleNewSession s ns).1,
     (AppNavigationV1.handleNewSession s ns).2)
  | .v2 => (.v2, some (AppNavigationV2.handleNewSession ns))

/-- Dispatcher `handleNewSession`: instantiate V1 when more than one
page arrives and no strategy is active, then forward. -/
def AppNavigation.handleNewSession (vm : VersionManager)
    (ns : NewSession) : VersionManager × Option HandlerOutput :=
  AppNavigation.forwardNewSession
    (match vm with
     | .vnull =>
       if ns.appPages.length > 1 then VersionManager.v1 {} else .vnull
     | _ => vm) ns

/-- Dispatcher `handlePagesChanged`: forward via `?.`. -/
def AppNavigation.handlePagesChanged (vm : VersionManager)
    (msg : PagesChanged) : VersionManager × Option HandlerOutput :=
  match vm with
  | .vnull => (.vnull, some { effects := [], update := none })
  | .v1 s =>
    (.v1 (AppNavigationV1.handlePagesChanged s msg).1,
     some (AppNavigationV1.handlePagesChanged s msg).2)
  | .v2 => (.v2, some (AppNavigationV2.handlePagesChanged msg))

/-- Dispatcher `handleNavigation`: if the manager is not a V2 instance
(including `null` and V1), replace it with a fresh V2, then forward. -/
def AppNavigation.handleNavigation (vm : VersionManager)
    (msg : Navigation) : VersionManager × Option HandlerOutput :=
  match vm with
  | .v2 => (.v2, AppNavigationV2.handleNavigation msg)
  | _ => (.v2, AppNavigationV2.handleNavigation msg)

/-- Dispatcher `handlePageNotFound`: forward via `?.`. -/
def AppNavigation.handlePageNotFound (vm : VersionManager)
    (msg : PageNotFound) : VersionManager × Option HandlerOutput :=
  match vm with
  | .vnull => (.vnull, some { effects := [], update := none })
  | .v1 s =>
    (.v1 (AppNavigationV1.handlePageNotFound s msg).1,
     some (AppNavigationV1.handlePageNotFound s msg).2)
  | .v2 => (.v2, some (AppNavigationV2.handlePageNotFound msg))

/-- One inbound event of any of the four kinds. -/
inductive NavEvent where
  | newSession (ns : NewSession)
  | pagesChanged (msg : PagesChanged)
  | navigation (msg : Navigation)
  | pageNotFound (msg : PageNotFound)
deriving DecidableEq

/-- Dispatch one event to the corresponding dispatcher handler. -/
def AppNavigation.handleEvent (vm : VersionManager) (e : NavEvent) :
    VersionManager × Option HandlerOutput :=
  match e with
  | .newSession ns => AppNavigation.handleNewSession vm ns
  | .pagesChanged m => AppNavigation.handlePagesChanged vm m
  | .navigation m => AppNavigation.handleNavigation vm m
  | .pageNotFound m => AppNavigation.handlePageNotFound vm m

/-- Run a sequence of events, tracking only the strategy field. -/
def AppNavigation.handleEvents (vm : VersionManager)
    (es : List NavEvent) : VersionManager :=
  es.foldl (fun v e => (AppNavigation.handleEvent v e).1) vm

/-- Helper: with the sectioned strategy active, no event changes the
strategy field. -/
theorem handleEvent_v2_fst (e : NavEvent) :
    (AppNavigation.handleEvent VersionManager.v2 e).1 = VersionManager.v2 := by
  cases e <;> rfl

/-- C1: the active strategy only ever moves from none to legacy, none to
sectioned, or legacy to sectioned: each event step is monotone in the
protocol rank, and once the sectioned strategy is active it stays active
across any sequence of events. -/
theorem c1_strategy_promotion :
    (∀ (vm : VersionManager) (e : NavEvent),
      strategyVersion vm ≤ strategyVersion (AppNavigation.handleEvent vm e).1) ∧
    (∀ es : List NavEvent,
      AppNavigation.handleEvents VersionManager.v2 es = VersionManager.v2) := by
  constructor
  · intro vm e
    cases e <;> cases vm <;>
      first
        | exact Nat.zero_le _
        | exact Nat.le_refl _
        | exact Nat.le_succ _
  · intro es
    induction es with
    | nil => rfl
    | cons e es ih =>
      simpa [AppNavigation.handleEvents, handleEvent_v2_fst]
        using ih

/-- C2: dispatcher `NewSession` routing — with no strategy and more than
one page, a fresh V1 strategy is created and the event forwarded to it;
an already-active strategy of either version is kept and the event
forwarded to it; with no strategy and exactly one page, no strategy is
created and no state update is returned. -/
theorem c2_newSession_dispatch (ns : NewSession) (s : AppNavigationV1) :
    (ns.appPages.length > 1 →
      AppNavigation.handleNewSession VersionManager.vnull ns =
        (VersionManager.v1 (AppNavigationV1.handleNewSession {} ns).1,
         (AppNavigationV1.handleNewSession {} ns).2)) ∧
    (AppNavigation.handleNewSession (VersionManager.v1 s) ns =
      (VersionManager.v1 (AppNavigationV1.handleNewSession s ns).1,
       (AppNavigationV1.handleNewSession s ns).2)) ∧
    (AppNavigation.handleNewSession VersionManager.v2 ns =
      (VersionManager.v2, some (AppNavigationV2.handleNewSession ns))) ∧
    (ns.appPages.length = 1 →
      AppNavigation.handleNewSession VersionManager.vnull ns =
        (VersionManager.vnull, some { effects := [], update := none })) := by
  refine ⟨fun h => ?_, rfl, rfl, fun h => ?_⟩
  · simp only [AppNavigation.handleNewSession, if_pos h]
    rfl
  · simp only [AppNavigation.handleNewSession, h]
    rfl

/-- Witness for C2 at a concrete two-page session. -/
theorem c2_newSession_dispatch_witness :
    AppNavigation.handleNewSession VersionManager.vnull
        { appPages := [{ pageScriptHash := some "h1" },
                       { pageScriptHash := some "h2" }],
          pageScriptHash := "h1" } =
      (VersionManager.v1
         (AppNavigationV1.handleNewSession {}
           { appPages := [{ pageScriptHash := some "h1" },
                          { pageScriptHash := some "h2" }],
             pageScriptHash := "h1" }).1,
       (AppNavigationV1.handleNewSession {}
         { appPages := [{ pageScriptHash := some "h1" },
                        { pageScriptHash := some "h2" }],
           pageScriptHash := "h1" }).2) :=
  (c2_newSession_dispatch _ {}).1 (by decide)

/-- C3: after any `Navigation` event the sectioned (V2) strategy is the
active one, whatever the prior strategy was (none, V1 or V2): the
strategy field becomes V2 (discarding any V1 state) and the event is
forwarded to the V2 handler. -/
theorem c3_navigation_always_v2 (vm : VersionManager) (msg : Navigation) :
    AppNavigation.handleNavigation vm msg =
      (VersionManager.v2, AppNavigationV2.handleNavigation msg) := by
  cases vm <;> rfl

/-- C10: with no active strategy, a `NewSession` whose page list is
empty — like any list of at most one page — creates no strategy and
returns no state update. -/
theorem c10_empty_session_noop (ns : NewSession) :
    (ns.appPages = [] →
      AppNavigation.handleNewSession VersionManager.vnull ns =
        (VersionManager.vnull, some { effects := [], update := none })) ∧
    (ns.appPages.length ≤ 1 →
      AppNavigation.handleNewSession VersionManager.vnull ns =
        (VersionManager.vnull, some { effects := [], update := none })) := by
  refine ⟨fun h => ?_, fun h => ?_⟩
  · simp only [AppNavigation.handleNewSession, h]
    rfl
  · have hnot : ¬ ns.appPages.length > 1 := by omega
    simp only [AppNavigation.handleNewSession, if_neg hnot]
    rfl

/-- Witness for C10 at the zero-page session. -/
theorem c10_empty_session_noop_witness :
    AppNavigation.handleNewSession VersionManager.vnull
        { appPages := [], pageScriptHash := "h" } =
      (VersionManager.vnull, some { effects := [], update := none }) :=
  (c10_empty_session_noop { appPages := [], pageScriptHash := "h" }).1 rfl

/-- C6: the concrete legacy scenario — pages Home (h1) and About (h2),
current hash h2, no config — yields the patch
`{hideSidebarNav := false, appPages := [h1, h2],
currentPageScriptHash := "h2"}`, calls
`onUpdatePageUrl("Home", "About", false)`, sets the title to
`"About · Streamlit"`, and defers `SET_APP_PAGES` plus
`SET_CURRENT_PAGE_NAME("About", "h2")`. -/
theorem c6_v1_scenario (v1 : AppNavigationV1) :
    AppNavigationV1.handleNewSession v1
        { appPages :=
            [{ pageScriptHash := some "h1", pageName := some "Home" },
             { pageScriptHash := some "h2", pageName := some "About" }],
          pageScriptHash := "h2" } =
      ({ appPages :=
           [{ pageScriptHash := some "h1", pageName := some "Home" },
            { pageScriptHash := some "h2", pageName := some "About" }],
         currentPageScriptHash := some "h2",
         hideSidebarNav := some false },
       some
         { effects :=
             [Effect.updatePageUrl "Home" "About" false,
              Effect.setDocumentTitle "About · Streamlit",
              Effect.metricsEnqueue 2 (some false)],
           update :=
             some
               ({ hideSidebarNav := some false,
                  appPages := some
                    [{ pageScriptHash := some "h1", pageName := some "Home" },
                     { pageScriptHash := some "h2", pageName := some "About" }],
                  currentPageScriptHash := some "h2" },
                [HostMessage.setAppPages
                   [{ pageScriptHash := some "h1", pageName := some "Home" },
                    { pageScriptHash := some "h2", pageName := some "About" }],
                 HostMessage.setCurrentPageName "About" "h2"]) }) := by
  rfl

/-- C7: legacy `handlePageNotFound` invokes the `onPageNotFound`
callback as an immediate effect (the deferred procedure sends only the
host message); the patch's `currentPageScriptHash` is the first stored
page's hash, empty when the stored list is empty, and the deferred
message is `SET_CURRENT_PAGE_NAME` with empty page name and that
fallback hash. -/
theorem c7_v1_pageNotFound (v1 : AppNavigationV1) (msg : PageNotFound) :
    (AppNavigationV1.handlePageNotFound v1 msg =
      (v1,
        { effects := [Effect.pageNotFound msg.pageName],
          update :=
            some
              ({ currentPageScriptHash :=
                   some (((v1.appPages.head?).bind IAppPage.pageScriptHash).getD "") },
               [HostMessage.setCurrentPageName ""
                 (((v1.appPages.head?).bind IAppPage.pageScriptHash).getD "")]) })) ∧
    (v1.appPages = [] →
      ((v1.appPages.head?).bind IAppPage.pageScriptHash).getD "" = "") ∧
    (∀ p ps, v1.appPages = p :: ps →
      ((v1.appPages.head?).bind IAppPage.pageScriptHash).getD "" =
        (p.pageScriptHash).getD "") := by
  refine ⟨rfl, fun h => by simp [h], fun p ps h => by cases hh : p.pageScriptHash <;> simp [h, hh]⟩

/-- Witness for C7 at the empty stored page list. -/
theorem c7_v1_pageNotFound_witness :
    ((({} : AppNavigationV1).appPages.head?).bind IAppPage.pageScriptHash).getD "" = "" :=
  (c7_v1_pageNotFound {} { pageName := "missing" }).2.1 rfl

/-- C9: the legacy `handlePagesChanged` and `handlePageNotFound` leave
every strategy field unchanged, so a `handlePageNotFound` following a
`handlePagesChanged` takes its fallback hash from the page list stored
by the last `handleNewSession`, not from the `PagesChanged` payload. -/
theorem c9_v1_frame (v1 v0 : AppNavigationV1) (m : PagesChanged)
    (pnf : PageNotFound) (ns : NewSession) :
    ((AppNavigationV1.handlePagesChanged v1 m).1 = v1) ∧
    ((AppNavigationV1.handlePageNotFound v1 pnf).1 = v1) ∧
    ((AppNavigationV1.handlePageNotFound
        (AppNavigationV1.handlePagesChanged
          (AppNavigationV1.handleNewSession v0 ns).1 m).1 pnf).2.update =
      some
        ({ currentPageScriptHash :=
             some (((ns.appPages.head?).bind IAppPage.pageScriptHash).getD "") },
         [HostMessage.setCurrentPageName ""
           (((ns.appPages.head?).bind IAppPage.pageScriptHash).getD "")])) := by
  refine ⟨rfl, rfl, ?_⟩
  cases h : ns.appPages with
  | nil =>
    simp [AppNavigationV1.handleNewSession, AppNavigationV1.handlePagesChanged,
      AppNavigationV1.handlePageNotFound, h]
  | cons p ps =>
    simp [AppNavigationV1.handleNewSession, AppNavigationV1.handlePagesChanged,
      AppNavigationV1.handlePageNotFound, h]

/-- C4: when the flattened page list of a `Navigation` message contains
the page matching the message's hash, the returned patch clears
`appPages` to `[]` (pages live only in `navPageSections`), while the
deferred procedure sends `SET_APP_PAGES` with the full flattened list
followed by `SET_CURRENT_PAGE_NAME` with the current page's name (empty
if it is the default page) and its hash. -/
theorem c4_v2_navigation_patch (msg : Navigation) (cp : IAppPage)
    (h : (flattenSections msg.sections).find?
        (fun p => decide (p.pageScriptHash = some msg.pageScriptHash)) = some cp) :
    AppNavigationV2.handleNavigation msg =
      some
        { effects :=
            [Effect.metricsEnqueue (flattenSections msg.sections).length cp.isDefault,
             Effect.updatePageUrl ""
               (if jsTruthy cp.isDefault then "" else asString cp.pageName)
               ((cp.isDefault).getD false)],
          update :=
            some
              ({ appPages := some [],
                 navPageSections := some (buildNavPageSections msg.sections),
                 hideSidebarNav := some (decide (msg.position = "hidden")),
                 currentPageScriptHash := some (asString cp.pageScriptHash) },
               [HostMessage.setAppPages (flattenSections msg.sections),
                HostMessage.setCurrentPageName
                  (if jsTruthy cp.isDefault then "" else asString cp.pageName)
                  (asString cp.pageScriptHash)]) } := by
  simp only [AppNavigationV2.handleNavigation, h]

/-- Witness for C4 at a one-section, one-page message. -/
theorem c4_v2_navigation_patch_witness :
    AppNavigationV2.handleNavigation
        { sections :=
            [{ header := some "S",
               appPages := some [{ pageScriptHash := some "h", pageName := some "P" }] }],
          pageScriptHash := "h", position := "hidden" } =
      some
        { effects :=
            [Effect.metricsEnqueue 1 none,
             Effect.updatePageUrl "" "P" false],
          update :=
            some
              ({ appPages := some [],
                 navPageSections :=
                   some [("S", some [{ pageScriptHash := some "h", pageName := some "P" }])],
                 hideSidebarNav := some true,
                 currentPageScriptHash := some "h" },
               [HostMessage.setAppPages [{ pageScriptHash := some "h", pageName := some "P" }],
                HostMessage.setCurrentPageName "P" "h"]) } :=
  c4_v2_navigation_patch
    { sections :=
        [{ header := some "S",
           appPages := some [{ pageScriptHash := some "h", pageName := some "P" }] }],
      pageScriptHash := "h", position := "hidden" }
    { pageScriptHash := some "h", pageName := some "P" } (by decide)

/-- C5: section construction round-trip — sections `A ↦ [p1, p2]` and
`"" ↦ [p3]` give exactly those map entries in that order and the
flattened list `[p1, p2, p3]`; in general a section is keyed by its
header (empty when absent), the last write wins for duplicate headers,
and flattening preserves section order (it distributes over
concatenation of section lists). -/
theorem c5_sections_roundtrip :
    (∀ p1 p2 p3 : IAppPage,
      buildNavPageSections
          [{ header := some "A", appPages := some [p1, p2] },
           { header := some "", appPages := some [p3] }] =
        [("A", some [p1, p2]), ("", some [p3])] ∧
      flattenSections
          [{ header := some "A", appPages := some [p1, p2] },
           { header := some "", appPages := some [p3] }] = [p1, p2, p3]) ∧
    (∀ s : NavSection,
      buildNavPageSections [s] = [(jsStrOr s.header "", s.appPages)]) ∧
    (jsStrOr none "" = "") ∧
    (∀ (k : String) (v w : Option (List IAppPage)),
      buildNavPageSections
          [{ header := some k, appPages := v },
           { header := some k, appPages := w }] =
        [(jsStrOr (some k) "", w)]) ∧
    (∀ s1 s2 : List NavSection,
      flattenSections (s1 ++ s2) = flattenSections s1 ++ flattenSections s2) := by
  refine ⟨fun p1 p2 p3 => ⟨rfl, rfl⟩, fun s => rfl, rfl, fun k v w => ?_, fun s1 s2 => ?_⟩
  · simp [buildNavPageSections, jsMapSet]
  · induction s1 with
    | nil => rfl
    | cons s t ih =>
      show (s.appPages).getD [] ++ flattenSections (t ++ s2) =
        ((s.appPages).getD [] ++ flattenSections t) ++ flattenSections s2
      rw [ih, List.append_assoc]

/-- C8: the V2 `Navigation` handler completes exactly when the flattened
page list contains a page matching the message's hash; when the
precondition is violated there is no reported error or fallback result —
the handler is the unhandled lookup failure (`none`). -/
theorem c8_navigation_lookup_safety (msg : Navigation) :
    ((AppNavigationV2.handleNavigation msg).isSome ↔
      ∃ p ∈ flattenSections msg.sections,
        p.pageScriptHash = some msg.pageScriptHash) ∧
    ((¬ ∃ p ∈ flattenSections msg.sections,
        p.pageScriptHash = some msg.pageScriptHash) →
      AppNavigationV2.handleNavigation msg = none) := by
  have hsome : (AppNavigationV2.handleNavigation msg).isSome =
      ((flattenSections msg.sections).find? fun p =>
        decide (p.pageScriptHash = some msg.pageScriptHash)).isSome := by
    cases hf : (flattenSections msg.sections).find? fun p =>
        decide (p.pageScriptHash = some msg.pageScriptHash) with
    | none => simp only [AppNavigationV2.handleNavigation, hf, Option.isSome]
    | some cp => simp only [AppNavigationV2.handleNavigation, hf, Option.isSome]
  have hiff : (AppNavigationV2.handleNavigation msg).isSome ↔
      ∃ p ∈ flattenSections msg.sections,
        p.pageScriptHash = some msg.pageScriptHash := by
    rw [hsome, List.find?_isSome]
    simp
  refine ⟨hiff, fun hnone => ?_⟩
  have : ¬ (AppNavigationV2.handleNavigation msg).isSome := by
    rw [hiff]; exact hnone
  cases hv : AppNavigationV2.handleNavigation msg with
  | none => rfl
  | some o => rw [hv] at this; simp at this

/-- Witness for C8: a message whose section list is empty crashes the
lookup (no fallback result). -/
theorem c8_navigation_lookup_safety_witness :
    AppNavigationV2.handleNavigation
        { sections := [], pageScriptHash := "h", position := "" } = none :=
  (c8_navigation_lookup_safety
      { sections := [], pageScriptHash := "h", position := "" }).2 (by simp [flattenSections])
